import Mathlib

/-!
Verification of the jewelry-configurator repository (lxrogers/jewelryproto).

The repository consists of four browser entry points:
* `src/ring-configurator.js` — a plain ring configurator with a fast
  preview / high-quality debounce scheme,
* `src/sun-ring.js` and `src/sun-ring2.js` — two "sun and moon" ring
  configurators with localStorage presets and an animation test,
* an unnamed bundle holding a copy of the ring configurator, a variant of
  the sun-ring configurator with post-processing, and a subdivision demo
  comparing Loop and Catmull-Clark subdivision of a cube.

This file gives a shallow embedding of the first-party logic of those
files: JavaScript numbers are modelled by `ℚ` (slider values are finite
decimals; NaN and infinities never arise on the modelled paths), a value
that may be `undefined` by `Option ℚ`, the CAD kernel (replicad) as a free
term algebra of the operations the code invokes, potentially failing
kernel operations (fillet, chamfer, the external subdivision library) as
boolean / functional oracles, and the browser event loop as explicit
transition systems driven by event lists.
-/

namespace JewelryProto

/-! ## JavaScript values

A JavaScript variable holding a number or `undefined`.  `jsOr` is the
logical-or defaulting idiom `a || b` used by `loadPreset`: it returns `a`
unless `a` is falsy (`undefined` or `0`). -/

/-- A JavaScript number-or-undefined slot: `none` is `undefined`. -/
abbrev JsVal := Option ℚ

/-- JavaScript truthiness of a number-or-undefined value: `undefined` and
`0` are falsy, every other number is truthy. -/
def truthy : JsVal → Bool
  | none => false
  | some q => q != 0

/-- The JavaScript expression `a || b` on number-or-undefined values. -/
def jsOr (a b : JsVal) : JsVal := if truthy a then a else b

/-- The field holds a (finite) strictly positive number. -/
def isPos : JsVal → Prop
  | none => False
  | some q => 0 < q

instance (v : JsVal) : Decidable (isPos v) := by
  cases v with
  | none => exact isFalse (fun h => h)
  | some q => exact inferInstanceAs (Decidable (0 < q))

theorem jsOr_of_pos {v : JsVal} (h : isPos v) (d : JsVal) : jsOr v d = v := by
  cases v with
  | none => exact absurd h (fun hf => hf)
  | some q =>
    have hq : q ≠ 0 := ne_of_gt h
    simp [jsOr, truthy, hq]

/-! ## Preset persistence (`sun-ring.js` lines 444-563)

`savePreset` serializes the seven dimension globals under a name into the
`sunRingPresets` object in localStorage; `loadPreset` reads them back,
applying `||` defaults; `deletePreset` removes one entry.  The JSON
round-trip through localStorage is the identity on these flat records, so
the store is modelled as the parsed mapping from names to records. -/

/-- A record stored in `sunRingPresets` by `sun-ring.js`.  `ringHeight`
is never written by the current `savePreset` (so it is `none` on fresh
records) but is consulted by `loadPreset` to handle old presets. -/
structure Preset1 where
  ringWidth : JsVal
  height : JsVal
  ringHeight : JsVal
  sunDiameter : JsVal
  sunWidth : JsVal
  moonDiameter : JsVal
  moonAngle : JsVal
  filletRadius : JsVal
deriving DecidableEq

/-- The seven dimension globals of `sun-ring.js` (lines 26-32). -/
structure Globals1 where
  ringWidth : JsVal
  height : JsVal
  sunDiameter : JsVal
  sunThickness : JsVal
  moonDiameter : JsVal
  moonAngle : JsVal
  filletRadius : JsVal
deriving DecidableEq

/-- The parsed `sunRingPresets` mapping held in localStorage. -/
def Store1 := String → Option Preset1

/-- The record literal built by `savePreset` (sun-ring.js lines 451-459). -/
def presetOfGlobals1 (g : Globals1) : Preset1 :=
  { ringWidth := g.ringWidth
    height := g.height
    ringHeight := none
    sunDiameter := g.sunDiameter
    sunWidth := g.sunThickness
    moonDiameter := g.moonDiameter
    moonAngle := g.moonAngle
    filletRadius := g.filletRadius }

/-- `savePreset` (sun-ring.js lines 444-474): reads the already-trimmed
name from the text input (`presetName.value.trim()`), bails out on an
empty name, otherwise overwrites the entry for that name with the
current globals.  `name` stands for the trimmed input. -/
def savePreset1 (name : String) (g : Globals1) (store : Store1) : Store1 :=
  if name = "" then store
  else fun n => if n = name then some (presetOfGlobals1 g) else store n

/-- The assignments of `loadPreset` (sun-ring.js lines 491-498); the
current globals are fully overwritten, with `||` defaults for `height`
(falling back to the legacy `ringHeight` field and then `1`),
`moonDiameter` (`8`), `moonAngle` (`180`) and `filletRadius` (`0.3`). -/
def applyPreset1 (p : Preset1) : Globals1 :=
  { ringWidth := p.ringWidth
    height := jsOr (jsOr p.height p.ringHeight) (some 1)
    sunDiameter := p.sunDiameter
    sunThickness := p.sunWidth
    moonDiameter := jsOr p.moonDiameter (some 8)
    moonAngle := jsOr p.moonAngle (some 180)
    filletRadius := jsOr p.filletRadius (some (3/10)) }

/-- `loadPreset` (sun-ring.js lines 476-528): bails out when no preset is
selected or the name is not in the store, otherwise rewrites the seven
globals from the stored record. -/
def loadPreset1 (name : String) (g : Globals1) (store : Store1) : Globals1 :=
  if name = "" then g
  else
    match store name with
    | none => g
    | some p => applyPreset1 p

/-- `deletePreset` (sun-ring.js lines 530-547): bails out with no
selection, asks for confirmation, then removes the entry. -/
def deletePreset1 (name : String) (confirmed : Bool) (store : Store1) : Store1 :=
  if name = "" then store
  else if confirmed then fun n => if n = name then none else store n
  else store

/-- A record stored in `sunRing2Presets` by `sun-ring2.js` (lines
680-689); it additionally carries `moonHeight`. -/
structure Preset2 where
  ringWidth : JsVal
  height : JsVal
  sunDiameter : JsVal
  sunWidth : JsVal
  moonDiameter : JsVal
  moonAngle : JsVal
  moonHeight : JsVal
  filletRadius : JsVal
deriving DecidableEq

/-- The eight dimension globals of `sun-ring2.js` (lines 47-54). -/
structure Globals2 where
  ringWidth : JsVal
  height : JsVal
  sunDiameter : JsVal
  sunThickness : JsVal
  moonDiameter : JsVal
  moonAngle : JsVal
  moonHeight : JsVal
  filletRadius : JsVal
deriving DecidableEq

/-- The parsed `sunRing2Presets` mapping held in localStorage. -/
def Store2 := String → Option Preset2

/-- The record literal built by `savePreset` (sun-ring2.js lines 680-689). -/
def presetOfGlobals2 (g : Globals2) : Preset2 :=
  { ringWidth := g.ringWidth
    height := g.height
    sunDiameter := g.sunDiameter
    sunWidth := g.sunThickness
    moonDiameter := g.moonDiameter
    moonAngle := g.moonAngle
    moonHeight := g.moonHeight
    filletRadius := g.filletRadius }

/-- `savePreset` (sun-ring2.js lines 673-700); `name` stands for the
trimmed input, as in `savePreset1`. -/
def savePreset2 (name : String) (g : Globals2) (store : Store2) : Store2 :=
  if name = "" then store
  else fun n => if n = name then some (presetOfGlobals2 g) else store n

/-- The assignments of `loadPreset` (sun-ring2.js lines 717-725).  Only
`moonHeight` has a `||` fallback, and the fallback is the `HEIGHT` global
which the assignment on line 719 has already set to `preset.height`. -/
def applyPreset2 (p : Preset2) : Globals2 :=
  { ringWidth := p.ringWidth
    height := p.height
    sunDiameter := p.sunDiameter
    sunThickness := p.sunWidth
    moonDiameter := p.moonDiameter
    moonAngle := p.moonAngle
    moonHeight := jsOr p.moonHeight p.height
    filletRadius := p.filletRadius }

/-- `loadPreset` (sun-ring2.js lines 702-758). -/
def loadPreset2 (name : String) (g : Globals2) (store : Store2) : Globals2 :=
  if name = "" then g
  else
    match store name with
    | none => g
    | some p => applyPreset2 p

/-- `deletePreset` (sun-ring2.js lines 760-777). -/
def deletePreset2 (name : String) (confirmed : Bool) (store : Store2) : Store2 :=
  if name = "" then store
  else if confirmed then fun n => if n = name then none else store n
  else store

/-- All seven fields are finite positive numbers. -/
def allPos1 (g : Globals1) : Prop :=
  isPos g.ringWidth ∧ isPos g.height ∧ isPos g.sunDiameter ∧
  isPos g.sunThickness ∧ isPos g.moonDiameter ∧ isPos g.moonAngle ∧
  isPos g.filletRadius

instance (g : Globals1) : Decidable (allPos1 g) := by
  unfold allPos1; infer_instance

/-- All eight fields are finite positive numbers. -/
def allPos2 (g : Globals2) : Prop :=
  isPos g.ringWidth ∧ isPos g.height ∧ isPos g.sunDiameter ∧
  isPos g.sunThickness ∧ isPos g.moonDiameter ∧ isPos g.moonAngle ∧
  isPos g.moonHeight ∧ isPos g.filletRadius

instance (g : Globals2) : Decidable (allPos2 g) := by
  unfold allPos2; infer_instance

/-- C1: for every preset name (non-empty after trimming, as `savePreset`
requires) and every record of dimension globals whose fields are all
finite positive numbers, saving under that name and then loading that
name from the resulting storage — starting from any current globals —
restores every global parameter to exactly the saved value.  This holds
for `sun-ring.js` (seven parameters) and for `sun-ring2.js` (the same
seven plus `moonHeight`). -/
theorem savePreset_loadPreset_roundtrip
    (name : String) (g1 cur1 : Globals1) (g2 cur2 : Globals2)
    (s1 : Store1) (s2 : Store2)
    (hname : name ≠ "") (h1 : allPos1 g1) (h2 : allPos2 g2) :
    loadPreset1 name cur1 (savePreset1 name g1 s1) = g1 ∧
    loadPreset2 name cur2 (savePreset2 name g2 s2) = g2 := by
  obtain ⟨f1, f2, f3, f4, f5, f6, f7⟩ := g1
  obtain ⟨e1, e2, e3, e4, e5, e6, e7, e8⟩ := g2
  obtain ⟨p1, p2, p3, p4, p5, p6, p7⟩ := h1
  obtain ⟨q1, q2, q3, q4, q5, q6, q7, q8⟩ := h2
  constructor
  · simp [loadPreset1, savePreset1, presetOfGlobals1, applyPreset1, hname,
      jsOr_of_pos p2, jsOr_of_pos p5, jsOr_of_pos p6, jsOr_of_pos p7]
  · simp [loadPreset2, savePreset2, presetOfGlobals2, applyPreset2, hname,
      jsOr_of_pos q7]

/-- Concrete globals used to witness the round-trip theorems. -/
def witnessGlobals1 : Globals1 :=
  { ringWidth := some (11/5), height := some 1, sunDiameter := some 12,
    sunThickness := some 2, moonDiameter := some 8, moonAngle := some 180,
    filletRadius := some (3/10) }

/-- Concrete globals used to witness the round-trip theorems. -/
def witnessGlobals2 : Globals2 :=
  { ringWidth := some (3/2), height := some 1, sunDiameter := some (15/2),
    sunThickness := some (7/5), moonDiameter := some 4, moonAngle := some 180,
    moonHeight := some 1, filletRadius := some (3/10) }

/-- The empty preset store. -/
def emptyStore1 : Store1 := fun _ => none

/-- The empty preset store. -/
def emptyStore2 : Store2 := fun _ => none

theorem savePreset_loadPreset_roundtrip_witness :
    loadPreset1 "gift" witnessGlobals1
        (savePreset1 "gift" witnessGlobals1 emptyStore1) = witnessGlobals1 ∧
    loadPreset2 "gift" witnessGlobals2
        (savePreset2 "gift" witnessGlobals2 emptyStore2) = witnessGlobals2 :=
  savePreset_loadPreset_roundtrip "gift" witnessGlobals1 witnessGlobals1
    witnessGlobals2 witnessGlobals2 emptyStore1 emptyStore2
    (by decide)
    (by norm_num [allPos1, isPos, witnessGlobals1])
    (by norm_num [allPos2, isPos, witnessGlobals2])

/-- C9: `loadPreset` applies defaults with JavaScript `||`, so a stored
`0` behaves exactly like a missing field.  In `sun-ring.js` a stored
`moonDiameter` of `0` loads as `8`, a stored `moonAngle` of `0` loads as
`180`, and a stored `filletRadius` of `0` loads as `0.3`; in
`sun-ring2.js` a stored `moonHeight` of `0` loads as the current value of
the `HEIGHT` global (which the same call has just set from the preset). -/
theorem loadPreset_zero_like_missing (p : Preset1) (r : Preset2) :
    applyPreset1 { p with moonDiameter := some 0 } =
      applyPreset1 { p with moonDiameter := none } ∧
    applyPreset1 { p with moonAngle := some 0 } =
      applyPreset1 { p with moonAngle := none } ∧
    applyPreset1 { p with filletRadius := some 0 } =
      applyPreset1 { p with filletRadius := none } ∧
    (applyPreset1 { p with moonDiameter := some 0 }).moonDiameter = some 8 ∧
    (applyPreset1 { p with moonAngle := some 0 }).moonAngle = some 180 ∧
    (applyPreset1 { p with filletRadius := some 0 }).filletRadius = some (3/10) ∧
    applyPreset2 { r with moonHeight := some 0 } =
      applyPreset2 { r with moonHeight := none } ∧
    (applyPreset2 { r with moonHeight := some 0 }).moonHeight =
      (applyPreset2 { r with moonHeight := some 0 }).height := by
  refine ⟨?_, ?_, ?_, ?_, ?_, ?_, ?_, ?_⟩ <;>
    simp [applyPreset1, applyPreset2, jsOr, truthy]

/-- C10: `savePreset` and `deletePreset` (in both configurators) change
only the entry of the given preset name: every other name maps to exactly
the record it mapped to before the call. -/
theorem preset_store_frame
    (saveName delName other : String) (g1 : Globals1) (g2 : Globals2)
    (s1 : Store1) (s2 : Store2) (c : Bool)
    (hsave : other ≠ saveName) (hdel : other ≠ delName) :
    savePreset1 saveName g1 s1 other = s1 other ∧
    deletePreset1 delName c s1 other = s1 other ∧
    savePreset2 saveName g2 s2 other = s2 other ∧
    deletePreset2 delName c s2 other = s2 other := by
  refine ⟨?_, ?_, ?_, ?_⟩
  · unfold savePreset1
    by_cases h : saveName = "" <;> simp [h, hsave]
  · unfold deletePreset1
    by_cases h : delName = "" <;> cases c <;> simp [h, hdel]
  · unfold savePreset2
    by_cases h : saveName = "" <;> simp [h, hsave]
  · unfold deletePreset2
    by_cases h : delName = "" <;> cases c <;> simp [h, hdel]

theorem preset_store_frame_witness :
    savePreset1 "a" witnessGlobals1 emptyStore1 "b" = emptyStore1 "b" ∧
    deletePreset1 "a" true emptyStore1 "b" = emptyStore1 "b" ∧
    savePreset2 "a" witnessGlobals2 emptyStore2 "b" = emptyStore2 "b" ∧
    deletePreset2 "a" true emptyStore2 "b" = emptyStore2 "b" :=
  preset_store_frame "a" "a" "b" witnessGlobals1 witnessGlobals2
    emptyStore1 emptyStore2 true (by decide) (by decide)

/-! ## The CAD kernel as a free term algebra

The code only ever builds solids through `makeCylinder`, boolean
`cut`/`fuse`, `translate`, `fillet` and `chamfer`.  A `Shape` records the
exact sequence of kernel operations performed.  `fillet` and `chamfer`
can fail inside the kernel; the try/catch logic around them is modelled
with boolean success oracles. -/

/-- A symbolic replicad solid: the tree of kernel operations that built it. -/
inductive Shape where
  | cylinder (radius height : ℚ)
  | cut (a b : Shape)
  | fuse (a b : Shape)
  | translate (a : Shape) (x y z : ℚ)
  | filleted (a : Shape) (radius : ℚ)
  | chamfered (a : Shape) (radius : ℚ)
deriving DecidableEq

/-- `RING_DIAMETER`, a constant `25` in both sun-ring files. -/
def RING_DIAMETER : ℚ := 25

/-- `createRingWithSun` (sun-ring.js lines 50-110, sun-ring2.js lines
164-218), transcribed with the source's local names.  `filletOk s r`
says whether the kernel call `s.fillet(r)` succeeds; on failure the code
retries at `FILLET_RADIUS * 0.5` and then gives up on the fillet. -/
def createRingWithSun (ringWidth height sunDiameter sunThickness filletRadius : ℚ)
    (filletOk : Shape → ℚ → Bool) : Shape :=
  let outerRadius := RING_DIAMETER / 2
  let innerRadius := outerRadius - ringWidth
  let outerCylinder := Shape.cylinder outerRadius height
  let innerCylinder := Shape.cylinder innerRadius height
  let mainRing := Shape.cut outerCylinder innerCylinder
  let ringCenterlineRadius := (outerRadius + innerRadius) / 2
  let sunPositionX := ringCenterlineRadius
  let sunOuterRadius := sunDiameter / 2
  let sunInnerRadius := sunOuterRadius - sunThickness
  let sun := Shape.cut (Shape.cylinder sunOuterRadius height)
    (Shape.cylinder sunInnerRadius height)
  let sunTranslated := Shape.translate sun sunPositionX 0 0
  let sunPunchTranslated :=
    Shape.translate (Shape.cylinder sunInnerRadius height) sunPositionX 0 0
  let punchedRing := Shape.cut mainRing sunPunchTranslated
  let combinedShape := Shape.fuse punchedRing sunTranslated
  if filletRadius > 1/100 then
    if filletOk combinedShape filletRadius then
      Shape.filleted combinedShape filletRadius
    else if filletOk combinedShape (filletRadius * (1/2)) then
      Shape.filleted combinedShape (filletRadius * (1/2))
    else combinedShape
  else combinedShape

/-- The kernel-operation sequence exactly as claim C2 words it: cut the
inner from the outer ring cylinder, cut away the punch cylinder
translated to `x = (outerRadius + innerRadius) / 2`, fuse the hollow sun
translated to the same `x`, then (when `FILLET_RADIUS > 0.01`) fillet at
`FILLET_RADIUS`, retrying at half the radius and skipping edge treatment
if that also fails. -/
def claimRingWithSunSeq (ringWidth height sunDiameter sunThickness filletRadius : ℚ)
    (filletOk : Shape → ℚ → Bool) : Shape :=
  let outerRadius := RING_DIAMETER / 2
  let innerRadius := RING_DIAMETER / 2 - ringWidth
  let sunCenterX := (outerRadius + innerRadius) / 2
  let base := Shape.cut (Shape.cylinder (RING_DIAMETER / 2) height)
    (Shape.cylinder (RING_DIAMETER / 2 - ringWidth) height)
  let punched := Shape.cut base
    (Shape.translate (Shape.cylinder (sunDiameter / 2 - sunThickness) height)
      sunCenterX 0 0)
  let hollowSun := Shape.cut (Shape.cylinder (sunDiameter / 2) height)
    (Shape.cylinder (sunDiameter / 2 - sunThickness) height)
  let fused := Shape.fuse punched (Shape.translate hollowSun sunCenterX 0 0)
  if filletRadius > 1/100 then
    if filletOk fused filletRadius then Shape.filleted fused filletRadius
    else if filletOk fused (filletRadius / 2) then
      Shape.filleted fused (filletRadius / 2)
    else fused
  else fused

/-- C2: `createRingWithSun` performs exactly the fixed operation sequence
stated by the claim, for every choice of the dimension globals and every
behaviour of the kernel's fillet operation; in particular the hollow sun
and the punch cylinder are translated to `x = (outerRadius +
innerRadius) / 2`, the ring centerline radius. -/
theorem createRingWithSun_fixed_sequence
    (ringWidth height sunDiameter sunThickness filletRadius : ℚ)
    (filletOk : Shape → ℚ → Bool) :
    createRingWithSun ringWidth height sunDiameter sunThickness filletRadius filletOk =
      claimRingWithSunSeq ringWidth height sunDiameter sunThickness filletRadius filletOk := by
  have hhalf : filletRadius * (1/2) = filletRadius / 2 := by ring
  simp only [createRingWithSun, claimRingWithSunSeq, hhalf]

/-! ## Ring validation and error behaviour (`ring-configurator.js`)

`createPreviewRing` and `createHighQualityRing` validate their parameters
and throw on bad ones; the kernel operations `makeCylinder` and `cut`
are assumed to succeed (they are total in this model), while `fillet`
and `chamfer` may fail, governed by oracles. -/

/-- The un-filleted ring `outerCylinder.cut(innerCylinder)` both builders
start from. -/
def plainRing (outerDiameter innerDiameter height : ℚ) : Shape :=
  Shape.cut (Shape.cylinder (outerDiameter / 2) height)
    (Shape.cylinder (innerDiameter / 2) height)

/-- `createPreviewRing` (ring-configurator.js lines 88-114): throws when
the inner radius is within 0.5 of the outer radius, otherwise returns
the plain cut ring with no fillet. -/
def createPreviewRing (outerDiameter innerDiameter height : ℚ) :
    Except String Shape :=
  let outerRadius := outerDiameter / 2
  let innerRadius := innerDiameter / 2
  if innerRadius ≥ outerRadius - 1/2 then
    Except.error "Inner diameter must be at least 1mm smaller than outer diameter"
  else
    Except.ok (plainRing outerDiameter innerDiameter height)

/-- `createHighQualityRing` (ring-configurator.js lines 117-164): throws
on the same radius check, throws when the fillet radius exceeds half the
ring width, then builds the plain ring and — when `filletRadius > 0.1` —
tries `fillet`, falls back to `chamfer`, and finally keeps the
un-filleted ring; failures of those two edge operations are caught. -/
def createHighQualityRing (outerDiameter innerDiameter height filletRadius : ℚ)
    (filletOk chamferOk : Shape → ℚ → Bool) : Except String Shape :=
  let outerRadius := outerDiameter / 2
  let innerRadius := innerDiameter / 2
  if innerRadius ≥ outerRadius - 1/2 then
    Except.error "Inner diameter must be at least 1mm smaller than outer diameter"
  else if filletRadius > (outerRadius - innerRadius) / 2 then
    Except.error "Fillet radius is too large for the ring width"
  else
    let ring := plainRing outerDiameter innerDiameter height
    Except.ok <|
      if filletRadius > 1/10 then
        if filletOk ring filletRadius then Shape.filleted ring filletRadius
        else if chamferOk ring filletRadius then Shape.chamfered ring filletRadius
        else ring
      else ring

/-- Whether a builder threw. -/
def raisesError {α : Type} : Except String α → Bool
  | .error _ => true
  | .ok _ => false

/-- C4: `createPreviewRing` throws exactly when `innerDiameter/2 ≥
outerDiameter/2 - 0.5`; `createHighQualityRing` throws exactly when that
holds or `filletRadius > (outerRadius - innerRadius)/2`, for every
behaviour of the fillet and chamfer oracles — so a fillet failure never
raises; and when validation passes, `filletRadius > 0.1` and the fillet
fails, the result is the chamfer attempt if it succeeds and otherwise
the un-filleted ring. -/
theorem ring_builders_error_conditions
    (outerDiameter innerDiameter height filletRadius : ℚ)
    (filletOk chamferOk : Shape → ℚ → Bool) :
    (raisesError (createPreviewRing outerDiameter innerDiameter height) = true ↔
      innerDiameter / 2 ≥ outerDiameter / 2 - 1/2) ∧
    (raisesError (createHighQualityRing outerDiameter innerDiameter height
        filletRadius filletOk chamferOk) = true ↔
      (innerDiameter / 2 ≥ outerDiameter / 2 - 1/2 ∨
        filletRadius > (outerDiameter / 2 - innerDiameter / 2) / 2)) ∧
    (¬ innerDiameter / 2 ≥ outerDiameter / 2 - 1/2 →
      ¬ filletRadius > (outerDiameter / 2 - innerDiameter / 2) / 2 →
      filletRadius > 1/10 →
      filletOk (plainRing outerDiameter innerDiameter height) filletRadius = false →
      createHighQualityRing outerDiameter innerDiameter height filletRadius
          filletOk chamferOk =
        Except.ok
          (if chamferOk (plainRing outerDiameter innerDiameter height) filletRadius then
            Shape.chamfered (plainRing outerDiameter innerDiameter height) filletRadius
          else plainRing outerDiameter innerDiameter height)) := by
  refine ⟨?_, ?_, ?_⟩
  · simp only [createPreviewRing]
    split_ifs <;>
      first
        | exact iff_of_true rfl (by assumption)
        | exact iff_of_false (by simp [raisesError]) (by assumption)
  · simp only [createHighQualityRing]
    split_ifs <;>
      first
        | exact iff_of_true rfl (Or.inl (by assumption))
        | exact iff_of_true rfl (Or.inr (by assumption))
        | exact iff_of_false (by simp [raisesError])
            (not_or.mpr ⟨by assumption, by assumption⟩)
  · intro h1 h2 h3 h4
    simp only [createHighQualityRing]
    rw [if_neg h1, if_neg h2, if_pos h3]
    simp [h4]

/-- A constant-failure edge-operation oracle. -/
def alwaysFails : Shape → ℚ → Bool := fun _ _ => false

theorem ring_builders_error_conditions_witness :
    createHighQualityRing 20 10 2 1 alwaysFails alwaysFails =
      Except.ok (if alwaysFails (plainRing 20 10 2) 1 then
        Shape.chamfered (plainRing 20 10 2) 1
      else plainRing 20 10 2) :=
  (ring_builders_error_conditions 20 10 2 1 alwaysFails alwaysFails).2.2
    (by norm_num) (by norm_num) (by norm_num) rfl

/-! ## Subdivision demo (third file of the unnamed bundle)

`applyCatmullClark` converts a Three.js indexed geometry to the
`positions`/`cells` format of the external `gl-catmull-clark` library,
iterates it, and converts back.  The external library and
`three-subdivide`'s `LoopSubdivision` are modelled as opaque functions. -/

/-- An indexed Three.js `BufferGeometry`: flat vertex coordinates plus an
optional flat triangle index. -/
structure BufferGeo where
  positions : List ℚ
  index : Option (List ℕ)
deriving DecidableEq

/-- The external `gl-catmull-clark` entry point: positions and cells in,
positions and cells out. -/
def CCFun := List ℚ → List (List ℕ) → List ℚ × List (List ℕ)

/-- The external `three-subdivide` `LoopSubdivision` entry point. -/
def LoopFun := BufferGeo → BufferGeo

/-- The `for (let i = 0; i < indices.length; i += 3)` loop building
`cells` from the flat index (bundle lines 2311-2314). -/
def cellsOfIndices : List ℕ → List (List ℕ)
  | a :: b :: c :: rest => [a, b, c] :: cellsOfIndices rest
  | [] => []
  | rest => [rest]

/-- The indices contributed by one output cell (bundle lines 2341-2350):
a 3-cell is emitted unchanged, a 4-cell `[a,b,c,d]` is triangulated into
`[a,b,c]` and `[a,c,d]`, anything else is dropped with a warning. -/
def cellIndices : List ℕ → List ℕ
  | [a, b, c] => [a, b, c]
  | [a, b, c, d] => [a, b, c, a, c, d]
  | _ => []

/-- The `for (const cell of result.cells)` loop building `newIndices`. -/
def indicesOfCells (cells : List (List ℕ)) : List ℕ :=
  (cells.map cellIndices).flatten

/-- The `for (let i = 0; i < iterations; i++)` loop applying the external
subdivision (bundle lines 2322-2330), assuming the library call does not
throw (on a throw the loop breaks early). -/
def iterCC (cc : CCFun) : ℕ → List ℚ × List (List ℕ) → List ℚ × List (List ℕ)
  | 0, st => st
  | n + 1, st => iterCC cc n (cc st.1 st.2)

/-- `applyCatmullClark` (bundle lines 2297-2357): un-indexed geometry is
returned as a clone; otherwise the index is chunked into cells, the
external library is iterated, and the result is re-indexed. -/
def applyCatmullClark (cc : CCFun) (geometry : BufferGeo) (iterations : ℕ) :
    BufferGeo :=
  match geometry.index with
  | none => geometry
  | some idx =>
    let result := iterCC cc iterations (geometry.positions, cellsOfIndices idx)
    { positions := result.1, index := some (indicesOfCells result.2) }

/-- The conversion pipeline exactly as claim C5 words it: convert the
indexed triangles to 3-element cells, call the external `catmullClark`
once per requested iteration, then emit 3-element faces unchanged, split
each 4-element face `[a,b,c,d]` into `[a,b,c]` and `[a,c,d]`, and
discard faces of any other arity. -/
def claimCatmullClarkPipeline (cc : CCFun) (geometry : BufferGeo)
    (iterations : ℕ) : BufferGeo :=
  match geometry.index with
  | none => geometry
  | some idx =>
    let stepOnce := fun (st : List ℚ × List (List ℕ)) => cc st.1 st.2
    let result := stepOnce^[iterations] (geometry.positions, cellsOfIndices idx)
    { positions := result.1, index := some (indicesOfCells result.2) }

/-- `applyLoopSubdivision` (bundle lines 2282-2294): clone, then apply
the external `LoopSubdivision` once per iteration. -/
def applyLoopSubdivision (ls : LoopFun) (geometry : BufferGeo)
    (iterations : ℕ) : BufferGeo :=
  ls^[iterations] geometry

/-- The Loop branch of `generateGeometries` (bundle lines 2477-2481). -/
def generateLoopGeometry (ls : LoopFun) (original : BufferGeo)
    (iterations : ℕ) : BufferGeo :=
  if iterations > 0 then applyLoopSubdivision ls original iterations
  else original

/-- The Catmull-Clark branch of `generateGeometries` (bundle lines
2484-2488). -/
def generateCatmullGeometry (cc : CCFun) (original : BufferGeo)
    (iterations : ℕ) : BufferGeo :=
  if iterations > 0 then applyCatmullClark cc original iterations
  else original

theorem iterCC_eq_iterate (cc : CCFun) (n : ℕ) (st : List ℚ × List (List ℕ)) :
    iterCC cc n st = (fun st => cc st.1 st.2)^[n] st := by
  induction n generalizing st with
  | zero => rfl
  | succ n ih => rw [iterCC, ih, Function.iterate_succ_apply]

theorem cellsOfIndices_len3 (idx : List ℕ) (hlen : idx.length % 3 = 0) :
    ∀ cell ∈ cellsOfIndices idx, cell.length = 3 := by
  match idx with
  | [] => intro cell hcell; simp [cellsOfIndices] at hcell
  | [a] => intro cell hcell; exfalso; simp at hlen
  | [a, b] => intro cell hcell; exfalso; simp at hlen
  | a :: b :: c :: rest =>
    intro cell hcell
    rw [show cellsOfIndices (a :: b :: c :: rest) =
        [a, b, c] :: cellsOfIndices rest from rfl] at hcell
    rcases List.mem_cons.mp hcell with h | h
    · subst h; rfl
    · refine cellsOfIndices_len3 rest ?_ cell h
      simp only [List.length_cons] at hlen
      omega

/-- C5: `applyCatmullClark` is exactly the claimed pipeline — cells from
triangles, one external call per iteration, 3-faces kept, 4-faces split
into the two stated triangles, other arities discarded; the cell
conversion produces only 3-element cells whenever the index length is a
multiple of three; and with `iterations = 0` the `generateGeometries`
callers of both subdivision wrappers return a clone of the original
geometry, untouched by either external library. -/
theorem applyCatmullClark_matches_claim (cc : CCFun) (ls : LoopFun)
    (geometry original : BufferGeo) (iterations : ℕ)
    (idx : List ℕ) (hlen : idx.length % 3 = 0) :
    applyCatmullClark cc geometry iterations =
      claimCatmullClarkPipeline cc geometry iterations ∧
    (∀ cell ∈ cellsOfIndices idx, cell.length = 3) ∧
    generateLoopGeometry ls original 0 = original ∧
    generateCatmullGeometry cc original 0 = original := by
  refine ⟨?_, cellsOfIndices_len3 idx hlen, rfl, rfl⟩
  unfold applyCatmullClark claimCatmullClarkPipeline
  cases geometry.index with
  | none => rfl
  | some idx2 => simp [iterCC_eq_iterate]

theorem applyCatmullClark_matches_claim_witness :
    cellsOfIndices [0, 1, 2, 3, 4, 5] = [[0, 1, 2], [3, 4, 5]] ∧
    ([3, 4, 5] : List ℕ).length = 3 :=
  ⟨by decide,
    (applyCatmullClark_matches_claim (fun p c => (p, c)) id
        ⟨[], none⟩ ⟨[], none⟩ 0 [0, 1, 2, 3, 4, 5] (by decide)).2.1
      [3, 4, 5] (by decide)⟩

/-! ## Error handling of the geometry-update entry points

Each entry point that builds or updates displayed geometry wraps its body
in try/catch (or fails to).  A handler is modelled as a function from the
outcome of its body — `Except.error msg` when some kernel or meshing call
threw — to what escapes the handler: whether the error propagates
uncaught, which browser alerts are shown, and whether a console error is
logged. -/

/-- What escapes a geometry-update entry point. -/
structure HandlerResult where
  propagates : Bool
  alerts : List String
  logsError : Bool
deriving DecidableEq

/-- `createAndDisplayRing` (sun-ring.js lines 310-416): catch, log,
`alert('Error: ' + error.message)`. -/
def runCreateAndDisplayRing : Except String Unit → HandlerResult
  | .ok _ => ⟨false, [], false⟩
  | .error msg => ⟨false, ["Error: " ++ msg], true⟩

/-- `createAndDisplayJewelry` (sun-ring2.js lines 471-546): catch, log,
alert. -/
def runCreateAndDisplayJewelry : Except String Unit → HandlerResult
  | .ok _ => ⟨false, [], false⟩
  | .error msg => ⟨false, ["Error: " ++ msg], true⟩

/-- `updateRing` (ring-configurator.js lines 323-463): catch, log,
`alert('Error: ' + error.message)`. -/
def runUpdateRing : Except String Unit → HandlerResult
  | .ok _ => ⟨false, [], false⟩
  | .error msg => ⟨false, ["Error: " ++ msg], true⟩

/-- `rebuildMoonMesh` (sun-ring.js lines 582-632, likewise sun-ring2.js
lines 549-591): catch and `console.error` only — no alert is shown. -/
def runRebuildMoonMesh : Except String Unit → HandlerResult
  | .ok _ => ⟨false, [], false⟩
  | .error _ => ⟨false, [], true⟩

/-- `initializeReplicad` (sun-ring.js lines 35-47 and the configurator
copies): catch and `console.error` only. -/
def runReplicadSetup : Except String Unit → HandlerResult
  | .ok _ => ⟨false, [], false⟩
  | .error _ => ⟨false, [], true⟩

/-- The subdivision demo's regenerate click handler (bundle lines
2530-2535): an async handler with no try/catch, so a throw from
`generateGeometries` escapes as an unhandled promise rejection. -/
def runRegenerateClick : Except String Unit → HandlerResult
  | .ok _ => ⟨false, [], false⟩
  | .error _ => ⟨true, [], false⟩

/-- Counterexample to C3: an error inside `rebuildMoonMesh` is caught but
produces no alert at all (so no alert contains its message), and an
error inside the subdivision demo's regenerate handler propagates
uncaught. -/
theorem geometry_error_alert_counterexample :
    (runRebuildMoonMesh (Except.error "mesh failed")).alerts = [] ∧
    (¬ ∃ a ∈ (runRebuildMoonMesh (Except.error "mesh failed")).alerts,
      ∃ s t, a = s ++ "mesh failed" ++ t) ∧
    (runRegenerateClick (Except.error "kernel not ready")).propagates = true := by
  refine ⟨rfl, ?_, rfl⟩
  rintro ⟨a, ha, -⟩
  simp [runRebuildMoonMesh] at ha

/-- C3 (amended): every error raised while constructing or updating the
displayed geometry in the three configurators is caught; the full-build
entry points (`createAndDisplayRing`, `createAndDisplayJewelry`,
`updateRing`) show exactly one browser alert containing the error
message, while `rebuildMoonMesh` and `initializeReplicad` catch the
error but only log it to the console without an alert; in the
subdivision demo the regenerate handler has no catch and the error
propagates uncaught with no alert. -/
theorem geometry_error_handling (msg : String) :
    runCreateAndDisplayRing (Except.error msg) = ⟨false, ["Error: " ++ msg], true⟩ ∧
    runCreateAndDisplayJewelry (Except.error msg) = ⟨false, ["Error: " ++ msg], true⟩ ∧
    runUpdateRing (Except.error msg) = ⟨false, ["Error: " ++ msg], true⟩ ∧
    runRebuildMoonMesh (Except.error msg) = ⟨false, [], true⟩ ∧
    runReplicadSetup (Except.error msg) = ⟨false, [], true⟩ ∧
    runRegenerateClick (Except.error msg) = ⟨true, [], false⟩ :=
  ⟨rfl, rfl, rfl, rfl, rfl, rfl⟩

/-! ## Debounced preview / high-quality updates (`ring-configurator.js`)

`instantPreviewUpdate` (lines 497-515) runs on every slider input.  The
browser state relevant to it is the `isInitialized` flag and the set of
pending `qualityUpdateTimeout` timers; its observable effects are the
immediate preview updates performed and the timers newly scheduled
(recorded with their delays in milliseconds). -/

/-- The configurator state seen by `instantPreviewUpdate`. -/
structure ConfigState where
  initDone : Bool
  pendingQuality : ℕ
deriving DecidableEq

/-- The effects of one call to `instantPreviewUpdate`. -/
structure UpdateEffects where
  previewUpdates : ℕ
  scheduledDelays : List ℕ
deriving DecidableEq

/-- `instantPreviewUpdate` (ring-configurator.js lines 497-515): when
initialized, clear any pending quality timer, run one preview update,
and schedule one quality update 300 ms out; otherwise do nothing. -/
def instantPreviewUpdate (s : ConfigState) : ConfigState × UpdateEffects :=
  if s.initDone then
    ({ s with pendingQuality := 1 }, ⟨1, [300]⟩)
  else (s, ⟨0, []⟩)

/-- The events that touch the quality-timer state: the initialization
promise resolving (sets `isInitialized`), a slider input (runs
`instantPreviewUpdate`), and a scheduled quality timer firing. -/
inductive ConfigEvent where
  | replicadResolved
  | sliderInput
  | qualityTimerFire
deriving DecidableEq

/-- One event-loop step of the configurator. -/
def configStep (s : ConfigState) : ConfigEvent → ConfigState
  | .replicadResolved => { s with initDone := true }
  | .sliderInput => (instantPreviewUpdate s).1
  | .qualityTimerFire => { s with pendingQuality := s.pendingQuality - 1 }

/-- The page-load state: kernel not initialized, no pending timer. -/
def configStart : ConfigState := ⟨false, 0⟩

/-- Run the configurator event loop on a list of events. -/
def configRun (events : List ConfigEvent) : ConfigState :=
  events.foldl configStep configStart

theorem configStep_pending_le (s : ConfigState) (e : ConfigEvent)
    (h : s.pendingQuality ≤ 1) : (configStep s e).pendingQuality ≤ 1 := by
  cases e with
  | replicadResolved => exact h
  | sliderInput =>
    unfold configStep instantPreviewUpdate
    by_cases hi : s.initDone <;> simp [hi, h]
  | qualityTimerFire => exact le_trans (Nat.sub_le _ _) h

theorem configRun_pending_le_aux (events : List ConfigEvent) (s : ConfigState)
    (h : s.pendingQuality ≤ 1) :
    (events.foldl configStep s).pendingQuality ≤ 1 := by
  induction events generalizing s with
  | nil => exact h
  | cons e rest ih => exact ih _ (configStep_pending_le s e h)

/-- Counterexample to C6 as stated: a call to `instantPreviewUpdate`
before the kernel flag is set performs no preview update and schedules
nothing, rather than performing one preview update and scheduling
exactly one high-quality update. -/
theorem instantPreviewUpdate_uninitialized_counterexample :
    (instantPreviewUpdate configStart).2.previewUpdates = 0 ∧
    (instantPreviewUpdate configStart).2.scheduledDelays = [] ∧
    ¬ ((instantPreviewUpdate configStart).2.previewUpdates = 1 ∧
       (instantPreviewUpdate configStart).2.scheduledDelays = [300]) := by
  refine ⟨rfl, rfl, ?_⟩
  rintro ⟨h, -⟩
  simp [instantPreviewUpdate, configStart] at h

/-- C6 (amended): in every event sequence from page load, at most one
high-quality update timer is pending at any point; and every call to
`instantPreviewUpdate` made while the kernel flag is set first cancels
any pending high-quality timer, performs one immediate preview update,
and schedules exactly one new high-quality update with a 300 ms delay
(leaving exactly one pending timer).  A call made before the flag is set
does nothing. -/
theorem quality_timer_at_most_one (events : List ConfigEvent) (s : ConfigState)
    (hs : s.initDone = true) :
    (configRun events).pendingQuality ≤ 1 ∧
    instantPreviewUpdate s =
      ({ s with pendingQuality := 1 }, ⟨1, [300]⟩) ∧
    instantPreviewUpdate { initDone := false, pendingQuality := 0 } =
      ({ initDone := false, pendingQuality := 0 }, ⟨0, []⟩) := by
  refine ⟨configRun_pending_le_aux events configStart (by simp [configStart]), ?_, rfl⟩
  simp [instantPreviewUpdate, hs]

theorem quality_timer_at_most_one_witness :
    (configRun [ConfigEvent.replicadResolved, ConfigEvent.sliderInput,
      ConfigEvent.sliderInput]).pendingQuality ≤ 1 ∧
    instantPreviewUpdate ⟨true, 1⟩ = (⟨true, 1⟩, ⟨1, [300]⟩) ∧
    instantPreviewUpdate ⟨false, 0⟩ = (⟨false, 0⟩, ⟨0, []⟩) :=
  quality_timer_at_most_one
    [ConfigEvent.replicadResolved, ConfigEvent.sliderInput, ConfigEvent.sliderInput]
    ⟨true, 1⟩ rfl

/-! ## Kernel calls and initialization order

The configurators guard every event-triggered kernel call with the
`isInitialized` flag.  The subdivision demo instead wires its regenerate
button inside `init()` *before* awaiting `initializeReplicad()`, and its
click handler calls `generateGeometries` (hence `makeBaseBox`) with no
guard at all. -/

/-- Event-triggered entry points of the configurator pages
(ring-configurator.js `setupSliderListeners`/`instantPreviewUpdate`,
sun-ring.js `setupSliders`/`loadPreset`, and the initial build in
`initializeApp`).  `moonAngleInput` only moves the existing mesh with a
Three.js transform and never touches the kernel. -/
inductive AppEvent where
  | replicadResolved
  | sliderInput
  | loadPresetClick
  | initialBuild
  | moonAngleInput
deriving DecidableEq

/-- The configurator state: just the `isInitialized` flag. -/
structure AppState where
  kernelReady : Bool
deriving DecidableEq

/-- State change of each configurator event. -/
def appStep (s : AppState) : AppEvent → AppState
  | .replicadResolved => ⟨true⟩
  | _ => s

/-- Kernel operations performed by each configurator event: every
geometry-building handler is wrapped in `if (isInitialized)`. -/
def appKernelCalls (s : AppState) : AppEvent → ℕ
  | .replicadResolved => 0
  | .sliderInput => if s.kernelReady then 1 else 0
  | .loadPresetClick => if s.kernelReady then 1 else 0
  | .initialBuild => if s.kernelReady then 1 else 0
  | .moonAngleInput => 0

/-- Kernel calls performed while the kernel is not yet initialized,
accumulated over an event sequence. -/
def appUnguardedCalls : AppState → List AppEvent → ℕ
  | _, [] => 0
  | s, e :: rest =>
    (if s.kernelReady then 0 else appKernelCalls s e) +
      appUnguardedCalls (appStep s e) rest

/-- The subdivision demo's state: whether `setupControls` has wired the
regenerate button, and whether `initializeReplicad` has resolved. -/
structure DemoState where
  controlsWired : Bool
  kernelReady : Bool
deriving DecidableEq

/-- Demo events: `init()` wires the controls synchronously, then awaits
the kernel; a click on regenerate is possible from the moment the
controls are wired. -/
inductive DemoEvent where
  | wireControls
  | replicadResolved
  | regenerateClick
deriving DecidableEq

/-- State change of each demo event. -/
def demoStep (s : DemoState) : DemoEvent → DemoState
  | .wireControls => { s with controlsWired := true }
  | .replicadResolved => { s with kernelReady := true }
  | .regenerateClick => s

/-- Kernel operations of each demo event: the regenerate handler calls
`generateGeometries` → `createReplicadCube` → `makeBaseBox` with no
initialization guard (bundle lines 2530-2535 and 2255-2278). -/
def demoKernelCalls (s : DemoState) : DemoEvent → ℕ
  | .regenerateClick => if s.controlsWired then 1 else 0
  | _ => 0

/-- Demo kernel calls performed while the kernel is not yet initialized. -/
def demoUnguardedCalls : DemoState → List DemoEvent → ℕ
  | _, [] => 0
  | s, e :: rest =>
    (if s.kernelReady then 0 else demoKernelCalls s e) +
      demoUnguardedCalls (demoStep s e) rest

/-- The demo's page-load state. -/
def demoStart : DemoState := ⟨false, false⟩

/-- Counterexample to C7: in the subdivision demo, the realizable event
sequence "init wires the controls, the user clicks regenerate while the
kernel WASM is still loading" performs a kernel call (`makeBaseBox`)
before the initialization promise has resolved. -/
theorem demo_kernel_call_before_ready :
    demoUnguardedCalls demoStart
      [DemoEvent.wireControls, DemoEvent.regenerateClick] = 1 := rfl

theorem appUnguardedCalls_zero_aux (events : List AppEvent) (s : AppState) :
    appUnguardedCalls s events = 0 := by
  induction events generalizing s with
  | nil => rfl
  | cons e rest ih =>
    rw [appUnguardedCalls, ih]
    cases e with
    | replicadResolved => simp [appKernelCalls]
    | sliderInput =>
      by_cases h : s.kernelReady <;> simp [appKernelCalls, h]
    | loadPresetClick =>
      by_cases h : s.kernelReady <;> simp [appKernelCalls, h]
    | initialBuild =>
      by_cases h : s.kernelReady <;> simp [appKernelCalls, h]
    | moonAngleInput => simp [appKernelCalls]

/-- C7 (amended): in the configurator pages every event-triggered kernel
call sits behind the `isInitialized` flag, so no event sequence from
page load ever performs a kernel call before the initialization promise
has resolved; the subdivision demo is the exception — its regenerate
handler is wired before initialization completes and performs an
unguarded kernel call when clicked in that window. -/
theorem kernel_calls_guarded (events : List AppEvent) :
    appUnguardedCalls ⟨false⟩ events = 0 ∧
    demoUnguardedCalls demoStart
      [DemoEvent.wireControls, DemoEvent.regenerateClick] = 1 :=
  ⟨appUnguardedCalls_zero_aux events ⟨false⟩, rfl⟩

/-! ## What `savePreset` writes (`sun-ring2.js` as the interactive machine)

The dimension globals are only written by the slider input listeners
(`setupSliders`, lines 831-855), by `loadPreset`, and — for `MOON_ANGLE`
— by the animation frames: `startAnimation` (lines 617-637) sets the
target to `MOON_ANGLE + animationDegrees` and the final frame of
`animateFrame` assigns exactly that target.  `savePreset` then persists
the current globals verbatim. -/

/-- The eight dimension sliders of sun-ring2.js. -/
inductive Dial where
  | ringWidth
  | height
  | sunDiameter
  | sunThickness
  | moonDiameter
  | moonAngle
  | moonHeight
  | filletRadius
deriving DecidableEq

/-- The interactive state: the eight dimension globals plus the
`animationDegrees` setting (sun-ring2.js line 62, default 360). -/
structure SunRing2State where
  dims : Dial → ℚ
  animationDegrees : ℚ

/-- The defaults of sun-ring2.js lines 47-54 and 62. -/
def sunRing2Start : SunRing2State :=
  { dims := fun d =>
      match d with
      | .ringWidth => 3/2
      | .height => 1
      | .sunDiameter => 15/2
      | .sunThickness => 7/5
      | .moonDiameter => 4
      | .moonAngle => 180
      | .moonHeight => 1
      | .filletRadius => 3/10
    animationDegrees := 360 }

/-- Events that write the dimension globals: a slider input with the
slider's current value, the animation-degrees slider, and the completion
of one animation run (whose last frame assigns
`MOON_ANGLE := startAngle + animationDegrees`). -/
inductive SunRing2Event where
  | slider (d : Dial) (v : ℚ)
  | animDegrees (v : ℚ)
  | animationComplete

/-- One event-loop step of sun-ring2.js. -/
def sunRing2Step (s : SunRing2State) : SunRing2Event → SunRing2State
  | .slider d v => { s with dims := Function.update s.dims d v }
  | .animDegrees v => { s with animationDegrees := v }
  | .animationComplete =>
    let target := s.dims Dial.moonAngle + s.animationDegrees
    { s with dims := Function.update s.dims Dial.moonAngle target }

/-- Run the sun-ring2 event loop from page load. -/
def sunRing2Run (events : List SunRing2Event) : SunRing2State :=
  events.foldl sunRing2Step sunRing2Start

/-- Modelled from the spec: the HTML documents that define the slider
widgets (and hence the slider-defined ranges the spec appeals to) are
not part of `src/`.  The ranges are modelled as fixed rational intervals
around the code's defaults; the moon-angle slider, whose value is
displayed in whole degrees, is modelled as spanning one full rotation,
`0` to `360` — matching the `animationDegrees` default of `360`
("full rotation"). -/
def sliderLo : Dial → ℚ
  | .ringWidth => 1/2
  | .height => 1/2
  | .sunDiameter => 2
  | .sunThickness => 1/2
  | .moonDiameter => 1
  | .moonAngle => 0
  | .moonHeight => 1/2
  | .filletRadius => 0

/-- Modelled from the spec: upper slider bounds, see `sliderLo`. -/
def sliderHi : Dial → ℚ
  | .ringWidth => 5
  | .height => 3
  | .sunDiameter => 20
  | .sunThickness => 5
  | .moonDiameter => 15
  | .moonAngle => 360
  | .moonHeight => 3
  | .filletRadius => 1

/-- A slider input event can only carry a value inside the slider's
range; the other events carry no slider value. -/
def validEvent : SunRing2Event → Prop
  | .slider d v => sliderLo d ≤ v ∧ v ≤ sliderHi d
  | .animDegrees _ => True
  | .animationComplete => True

/-- Every event of the trace is a possible browser event. -/
def validTrace (events : List SunRing2Event) : Prop :=
  ∀ e ∈ events, validEvent e

/-- The globals read by `savePreset` (sun-ring2.js lines 680-689). -/
def globalsOfState (s : SunRing2State) : Globals2 :=
  { ringWidth := some (s.dims Dial.ringWidth)
    height := some (s.dims Dial.height)
    sunDiameter := some (s.dims Dial.sunDiameter)
    sunThickness := some (s.dims Dial.sunThickness)
    moonDiameter := some (s.dims Dial.moonDiameter)
    moonAngle := some (s.dims Dial.moonAngle)
    moonHeight := some (s.dims Dial.moonHeight)
    filletRadius := some (s.dims Dial.filletRadius) }

/-- The stored-record field corresponding to each dial. -/
def dialOfPreset (p : Preset2) : Dial → JsVal
  | .ringWidth => p.ringWidth
  | .height => p.height
  | .sunDiameter => p.sunDiameter
  | .sunThickness => p.sunWidth
  | .moonDiameter => p.moonDiameter
  | .moonAngle => p.moonAngle
  | .moonHeight => p.moonHeight
  | .filletRadius => p.filletRadius

/-- Counterexample to C8: starting from the defaults, letting one
animation run complete (a realizable trace: no slider is touched) and
then saving writes a preset whose `moonAngle` field is
`180 + 360 = 540`, outside the moon-angle slider's range. -/
theorem savePreset_slider_range_counterexample :
    validTrace [SunRing2Event.animationComplete] ∧
    savePreset2 "anim"
        (globalsOfState (sunRing2Run [SunRing2Event.animationComplete]))
        emptyStore2 "anim" =
      some (presetOfGlobals2
        (globalsOfState (sunRing2Run [SunRing2Event.animationComplete]))) ∧
    (presetOfGlobals2
        (globalsOfState (sunRing2Run [SunRing2Event.animationComplete]))).moonAngle =
      some 540 ∧
    sliderHi Dial.moonAngle < 540 := by
  refine ⟨?_, ?_, ?_, by norm_num [sliderHi]⟩
  · intro e he
    simp only [List.mem_singleton] at he
    subst he
    trivial
  · rw [savePreset2, if_neg (by decide)]
    simp
  · simp only [presetOfGlobals2, globalsOfState, sunRing2Run, List.foldl,
      sunRing2Step, Function.update_same]
    norm_num [sunRing2Start]

/-- All dials sit inside their slider ranges. -/
def dimsInRange (s : SunRing2State) : Prop :=
  ∀ d, sliderLo d ≤ s.dims d ∧ s.dims d ≤ sliderHi d

theorem sunRing2_inRange_aux (events : List SunRing2Event) (s : SunRing2State)
    (hs : dimsInRange s) (hv : ∀ e ∈ events, validEvent e)
    (hna : ∀ e ∈ events, e ≠ SunRing2Event.animationComplete) :
    dimsInRange (events.foldl sunRing2Step s) := by
  induction events generalizing s with
  | nil => exact hs
  | cons e rest ih =>
    refine ih _ ?_ (fun e2 he2 => hv e2 (List.mem_cons_of_mem _ he2))
      (fun e2 he2 => hna e2 (List.mem_cons_of_mem _ he2))
    cases e with
    | slider d v =>
      intro d2
      rw [sunRing2Step]
      by_cases hd : d2 = d
      · subst hd
        simpa [Function.update_same] using hv _ (List.mem_cons_self _ _)
      · simpa [Function.update_noteq hd] using hs d2
    | animDegrees v => exact fun d2 => hs d2
    | animationComplete =>
      exact absurd rfl (hna _ (List.mem_cons_self _ _))

/-- C8 (amended): every preset record that `savePreset` writes holds
exactly the current dimension globals, and in every valid event sequence
in which no animation run completes, each of those fields lies within
its slider-defined range (hence is positive whenever the slider's lower
bound is positive).  A completed animation run adds `animationDegrees`
to `MOON_ANGLE` (`+20°` in sun-ring.js), which can carry the saved
`moonAngle` field beyond the slider's range. -/
theorem savePreset_fields_follow_sliders (events : List SunRing2Event)
    (hvalid : validTrace events)
    (hnoanim : ∀ e ∈ events, e ≠ SunRing2Event.animationComplete) :
    ∀ d : Dial,
      sliderLo d ≤ (sunRing2Run events).dims d ∧
      (sunRing2Run events).dims d ≤ sliderHi d ∧
      (0 < sliderLo d → 0 < (sunRing2Run events).dims d) ∧
      dialOfPreset (presetOfGlobals2 (globalsOfState (sunRing2Run events))) d =
        some ((sunRing2Run events).dims d) := by
  have hrange : dimsInRange (sunRing2Run events) := by
    refine sunRing2_inRange_aux events sunRing2Start ?_ hvalid hnoanim
    intro d
    cases d <;> norm_num [sunRing2Start, sliderLo, sliderHi]
  intro d
  refine ⟨(hrange d).1, (hrange d).2, fun hlo => lt_of_lt_of_le hlo (hrange d).1, ?_⟩
  cases d <;> rfl

theorem savePreset_fields_follow_sliders_witness :
    sliderLo Dial.ringWidth ≤
      (sunRing2Run [SunRing2Event.slider Dial.ringWidth 2]).dims Dial.ringWidth ∧
    (sunRing2Run [SunRing2Event.slider Dial.ringWidth 2]).dims Dial.ringWidth ≤
      sliderHi Dial.ringWidth ∧
    (0 < sliderLo Dial.ringWidth →
      0 < (sunRing2Run [SunRing2Event.slider Dial.ringWidth 2]).dims Dial.ringWidth) ∧
    dialOfPreset
        (presetOfGlobals2 (globalsOfState
          (sunRing2Run [SunRing2Event.slider Dial.ringWidth 2])))
        Dial.ringWidth =
      some ((sunRing2Run [SunRing2Event.slider Dial.ringWidth 2]).dims Dial.ringWidth) :=
  savePreset_fields_follow_sliders [SunRing2Event.slider Dial.ringWidth 2]
    (by
      intro e he
      simp only [List.mem_singleton] at he
      subst he
      exact ⟨by norm_num [sliderLo], by norm_num [sliderHi]⟩)
    (by
      intro e he
      simp only [List.mem_singleton] at he
      subst he
      simp)
    Dial.ringWidth

end JewelryProto
